import Mathlib

/-!
Verification of the VMC (vending-machine controller) serial bridge:
frame codec, stream parser, poll-driven protocol engine, and the
payload encoders/decoders.  Byte strings are modelled as `List Nat`
with each element a value in `0..255`.
-/

/-- A Python `bytes` value: a list of byte values. -/
abbrev Bytes := List Nat

/-- Sync byte 1 (`STX1 = 0xFA` in `app.py` / `vmc_protocol.py`). -/
def STX1 : Nat := 0xFA

/-- Sync byte 2 (`STX2 = 0xFB`). -/
def STX2 : Nat := 0xFB

/-- Poll command id (`CMD_POLL = 0x41`). -/
def CMD_POLL : Nat := 0x41

/-- Ack command id (`CMD_ACK = 0x42`). -/
def CMD_ACK : Nat := 0x42

/-- Exclusive-or of all bytes of a list, as computed by the
`for x in ...: xor ^= x` loops in `build_packet`, `build_frame` and
both `_process_buffer` implementations. -/
def xorAll (l : Bytes) : Nat := l.foldl Nat.xor 0

/-- `build_packet` from `app.py`: `FA FB CMD LEN [PAYLOAD] XOR`, with the
xor taken over every byte except the checksum itself. -/
def build_packet (cmd : Nat) (payload : Bytes) : Bytes :=
  let header : Bytes := [STX1, STX2, cmd, payload.length]
  header ++ payload ++ [xorAll (header ++ payload)]

/-- `build_frame` from `vmc_protocol.py`: the communication number is
prepended to the payload bytes and the frame is
`FA FB cmd_id length full_payload xor`. -/
def build_frame (cmd_id comm_no : Nat) (payload_bytes : Bytes) : Bytes :=
  let full_payload : Bytes := comm_no :: payload_bytes
  let header : Bytes := [STX1, STX2, cmd_id, full_payload.length]
  header ++ full_payload ++ [xorAll (header ++ full_payload)]

/-- Index of the first occurrence of the two-byte subsequence
`STX1 STX2`, as computed by `self.buffer.index(bytes([STX1, STX2]))`
in `VMCConnection._process_buffer`; `none` models the `ValueError`. -/
def findSyncIdx : Bytes → Option Nat
  | [] => none
  | [_] => none
  | a :: b :: rest =>
    if a = STX1 ∧ b = STX2 then some 0
    else (findSyncIdx (b :: rest)).map (· + 1)

/-- One pass of `VMCConnection._process_buffer` from `app.py`, with a
fuel argument making the loop structurally recursive.  Each loop
iteration that recurses removes a whole frame (at least 5 bytes) from
the buffer, so fuel `buf.length + 1` is never exhausted.  Returns the
checksum-valid frames handed to `_handle_packet` (command id paired
with the payload `frame[4:-1]`) together with the bytes left in the
buffer. -/
def processBufferAux : Nat → Bytes → List (Nat × Bytes) → List (Nat × Bytes) × Bytes
  | 0, buf, acc => (acc, buf)
  | fuel + 1, buf, acc =>
    if buf.length < 5 then (acc, buf)
    else
      match findSyncIdx buf with
      | none => (acc, [])
      | some start =>
        let b2 := buf.drop start
        if b2.length < 5 then (acc, b2)
        else
          let cmd := b2.getD 2 0
          let lengthByte := b2.getD 3 0
          let frameLen := 2 + 1 + 1 + lengthByte + 1
          if b2.length < frameLen then (acc, b2)
          else
            let frame := b2.take frameLen
            let rest := b2.drop frameLen
            if xorAll frame.dropLast = frame.getLastD 0 then
              processBufferAux fuel rest (acc ++ [(cmd, (frame.drop 4).dropLast)])
            else
              processBufferAux fuel rest acc

/-- `VMCConnection._process_buffer`: drain the buffer, collecting every
checksum-valid frame. -/
def processBufferApp (buf : Bytes) : List (Nat × Bytes) × Bytes :=
  processBufferAux (buf.length + 1) buf []

/-- The hard-coded ack frame written by `VMCTransport._send_ack`:
`bytes([p.STX1, p.STX2, p.CMD_ACK, 0x00, 0x43])`. -/
def ackBytes : Bytes := [STX1, STX2, CMD_ACK, 0x00, 0x43]

/-- Engine state of `VMCTransport` (`self.state`): one of `"idle"`,
`"waiting_ack"`, `"waiting_data"`. -/
inductive EngineState
  | idle
  | waitingAck
  | waitingData
deriving DecidableEq

/-- The single in-flight command (`self.pending_cmd` dictionary):
`{cmd_id, comm_no, payload, retries, desc}`. -/
structure PendingCmd where
  cmd_id : Nat
  comm_no : Nat
  payload : Bytes
  retries : Nat
  desc : String
deriving DecidableEq

/-- The mutable protocol state of `VMCTransport`: engine state, the
next communication number, and the optional pending command. -/
structure VMCTransport where
  state : EngineState
  next_comm_no : Nat
  pending_cmd : Option PendingCmd
deriving DecidableEq

/-- Observable output of the transport: a serial write (`ser.write`),
a log line (`on_log`), or a decoded-packet callback (`on_packet`). -/
inductive TOut
  | write (bs : Bytes)
  | log (msg : String)
  | packet (cmd : Nat) (payload : Bytes)
deriving DecidableEq

/-- `VMCTransport.send_command`: raise `Busy` when the state is not
idle, otherwise allocate the next communication number (wrapping
`255 → 1`), store the pending command with zero retries, and move to
`waiting_ack`.  The raised exception is modelled as an `error` result,
and the returned state is the (unchanged) receiver in that case. -/
def send_command (t : VMCTransport) (cmd_id : Nat) (payload_bytes : Bytes)
    (description : String) : Except String Nat × VMCTransport :=
  if t.state ≠ EngineState.idle then
    (Except.error "Busy: Command in progress", t)
  else
    let comm := t.next_comm_no
    let next := if t.next_comm_no < 255 then t.next_comm_no + 1 else 1
    (Except.ok comm,
     { state := EngineState.waitingAck
       next_comm_no := next
       pending_cmd := some ⟨cmd_id, comm, payload_bytes, 0, description⟩ })

/-- `VMCTransport._transmit_pending`: on the retry budget being
exhausted (`retries >= 5`) log the timeout, clear the slot, return to
idle and send a bare ack; otherwise write the built command frame and
increment the retry counter. -/
def transmit_pending (t : VMCTransport) (c : PendingCmd) :
    VMCTransport × List TOut :=
  if c.retries ≥ 5 then
    ({ t with state := EngineState.idle, pending_cmd := none },
     [TOut.log ("Timeout: " ++ c.desc), TOut.write ackBytes])
  else
    ({ t with pending_cmd := some { c with retries := c.retries + 1 } },
     [TOut.write (build_frame c.cmd_id c.comm_no c.payload)])

/-- `VMCTransport._handle_valid_packet`: classify a checksum-valid
frame as poll / ack / data and react as the source does, returning the
new state together with the outputs in emission order. -/
def handle_valid_packet (t : VMCTransport) (cmd : Nat) (payload : Bytes) :
    VMCTransport × List TOut :=
  if cmd = CMD_POLL then
    match t.state, t.pending_cmd with
    | EngineState.waitingAck, some c => transmit_pending t c
    | EngineState.waitingData, some c =>
      ({ t with state := EngineState.idle, pending_cmd := none },
       [TOut.log ("Finished: " ++ c.desc), TOut.write ackBytes])
    | _, _ => (t, [TOut.write ackBytes])
  else if cmd = CMD_ACK then
    if t.state = EngineState.waitingAck then
      ({ t with state := EngineState.waitingData },
       [TOut.log "ACK received from VMC"])
    else (t, [])
  else
    (t, [TOut.write ackBytes, TOut.packet cmd payload])

/-- A poll frame arriving at the transport. -/
def handle_poll (t : VMCTransport) : VMCTransport × List TOut :=
  handle_valid_packet t CMD_POLL []

/-- Iterate `n` poll arrivals, concatenating the emitted outputs. -/
def applyPolls : VMCTransport → Nat → VMCTransport × List TOut
  | t, 0 => (t, [])
  | t, n + 1 =>
    let r1 := handle_poll t
    let r2 := applyPolls r1.1 n
    (r2.1, r1.2 ++ r2.2)

/-- Feed a list of classified inbound frames (command id, payload) to
the transport, keeping only the resulting state. -/
def applyFrames (t : VMCTransport) (fs : List (Nat × Bytes)) : VMCTransport :=
  fs.foldl (fun t f => (handle_valid_packet t f.1 f.2).1) t

/-- The transport's initial protocol state: idle, communication number
counter at 1, no pending command (`VMCTransport.__init__`). -/
def initTransport : VMCTransport :=
  { state := EngineState.idle, next_comm_no := 1, pending_cmd := none }

/-- States reachable from the initial transport state by any sequence
of `send_command` calls and classified inbound frames. -/
inductive Reachable : VMCTransport → Prop
  | init : Reachable initTransport
  | enqueue (t : VMCTransport) (cmd_id : Nat) (pl : Bytes) (d : String) :
      Reachable t → Reachable (send_command t cmd_id pl d).2
  | frame (t : VMCTransport) (cmd : Nat) (pl : Bytes) :
      Reachable t → Reachable (handle_valid_packet t cmd pl).1

/-- `_handle_valid_packet` never touches the communication-number
counter: only `send_command` advances it. -/
lemma handle_valid_packet_comm_no (t : VMCTransport) (cmd : Nat) (pl : Bytes) :
    (handle_valid_packet t cmd pl).1.next_comm_no = t.next_comm_no := by
  unfold handle_valid_packet transmit_pending
  repeat' split
  all_goals simp

/-- Feeding any sequence of frames preserves the counter. -/
lemma applyFrames_comm_no (fs : List (Nat × Bytes)) (t : VMCTransport) :
    (applyFrames t fs).next_comm_no = t.next_comm_no := by
  induction fs generalizing t with
  | nil => rfl
  | cons f fs ih =>
    show (applyFrames (handle_valid_packet t f.1 f.2).1 fs).next_comm_no = _
    rw [ih, handle_valid_packet_comm_no]

/-- In every reachable state the communication-number counter is at
least 1 (it starts at 1 and wraps `255 → 1`, never reaching 0). -/
lemma reachable_comm_no_pos (t : VMCTransport) (h : Reachable t) :
    1 ≤ t.next_comm_no := by
  induction h with
  | init => exact Nat.le_refl 1
  | enqueue t cid pl d _ ih =>
    by_cases hs : t.state = EngineState.idle
    · simp only [send_command, hs]
      simp only [ne_eq, not_true_eq_false, if_false, ite_not]
      split <;> omega
    · simpa [send_command, hs] using ih
  | frame t cmd pl _ ih =>
    rw [handle_valid_packet_comm_no]
    exact ih

/-- Claim C3: calling `send_command` while the engine state is not
idle fails with the `Busy` error and leaves the whole transport state
— pending command, engine state and sequence counter — unchanged. -/
theorem c3_busy_rejected (t : VMCTransport) (cmd_id : Nat) (pl : Bytes)
    (d : String) (h : t.state ≠ EngineState.idle) :
    send_command t cmd_id pl d = (Except.error "Busy: Command in progress", t) := by
  simp [send_command, h]

/-- Witness for C3 at a concrete busy transport state. -/
theorem c3_busy_rejected_witness :
    send_command ⟨EngineState.waitingAck, 2, some ⟨3, 1, [0, 12], 0, "buy"⟩⟩
        6 [1] "vend" =
      (Except.error "Busy: Command in progress",
       ⟨EngineState.waitingAck, 2, some ⟨3, 1, [0, 12], 0, "buy"⟩⟩) :=
  c3_busy_rejected _ 6 [1] "vend" (by decide)

/-- Claim C4: in every state reachable from the initial transport
state by `send_command` calls and classified inbound frames, the
pending-command slot is empty exactly when the engine state is idle;
hence `waiting_ack` and `waiting_data` always hold exactly one pending
command. -/
theorem c4_pending_iff_not_idle (t : VMCTransport) (h : Reachable t) :
    t.pending_cmd = none ↔ t.state = EngineState.idle := by
  induction h with
  | init => simp [initTransport]
  | enqueue t cid pl d _ ih =>
    by_cases hs : t.state = EngineState.idle
    · simp [send_command, hs]
    · simpa [send_command, hs] using ih
  | frame t cmd pl _ ih =>
    obtain ⟨st, ncn, pc⟩ := t
    by_cases h1 : cmd = CMD_POLL
    · subst h1
      cases st <;> rcases pc with _ | c <;>
        simp_all [handle_valid_packet, transmit_pending] <;>
        split <;> simp
    · by_cases h2 : cmd = CMD_ACK
      · subst h2
        cases st <;>
          simp_all [handle_valid_packet, CMD_POLL, CMD_ACK]
      · simpa [handle_valid_packet, h1, h2] using ih

/-- Witness for C4 at the state reached by one successful enqueue. -/
theorem c4_pending_iff_not_idle_witness :
    ((send_command initTransport 3 [0, 12] "buy").2.pending_cmd = none ↔
      (send_command initTransport 3 [0, 12] "buy").2.state = EngineState.idle) :=
  c4_pending_iff_not_idle _ (Reachable.enqueue _ 3 [0, 12] "buy" Reachable.init)

/-- Claim C5: across two consecutive successful `send_command` calls
(with any classified frames handled in between), the second issued
communication number is the first plus one, except that after 255 the
next issued value is 1; the value 0 is never issued. -/
theorem c5_comm_no_sequence (t : VMCTransport) (h : Reachable t)
    (cid1 cid2 : Nat) (pl1 pl2 : Bytes) (d1 d2 : String)
    (fs : List (Nat × Bytes)) (n1 n2 : Nat)
    (h1 : (send_command t cid1 pl1 d1).1 = Except.ok n1)
    (h2 : (send_command (applyFrames (send_command t cid1 pl1 d1).2 fs)
             cid2 pl2 d2).1 = Except.ok n2) :
    n2 = (if n1 < 255 then n1 + 1 else 1) ∧ n1 ≠ 0 ∧ n2 ≠ 0 := by
  by_cases hs : t.state = EngineState.idle
  · have e1 : (send_command t cid1 pl1 d1).1 = Except.ok t.next_comm_no := by
      simp [send_command, hs]
    have e2 : (send_command t cid1 pl1 d1).2.next_comm_no =
        (if t.next_comm_no < 255 then t.next_comm_no + 1 else 1) := by
      simp [send_command, hs]
    have hn1 : n1 = t.next_comm_no := by
      rw [e1] at h1
      exact (Except.ok.inj h1).symm
    set t2 := applyFrames (send_command t cid1 pl1 d1).2 fs with ht2
    have e3 : t2.next_comm_no = (if n1 < 255 then n1 + 1 else 1) := by
      rw [ht2, applyFrames_comm_no, e2, hn1]
    by_cases hs2 : t2.state = EngineState.idle
    · have e4 : (send_command t2 cid2 pl2 d2).1 = Except.ok t2.next_comm_no := by
        simp [send_command, hs2]
      rw [e4] at h2
      have hn2 : n2 = (if n1 < 255 then n1 + 1 else 1) := by
        rw [← e3]
        exact (Except.ok.inj h2).symm
      have hpos := reachable_comm_no_pos t h
      refine ⟨hn2, ?_, ?_⟩
      · omega
      · rw [hn2]
        split <;> omega
    · have e4 : (send_command t2 cid2 pl2 d2).1 =
          Except.error "Busy: Command in progress" := by
        simp [send_command, hs2]
      rw [e4] at h2
      exact absurd h2 (by simp)
  · simp [send_command, hs] at h1

/-- Witness for C5: two enqueues on the initial transport separated by
an ack and a poll (which complete the first transaction) issue the
communication numbers 1 and 2. -/
theorem c5_comm_no_sequence_witness :
    (2 : Nat) = (if (1 : Nat) < 255 then 1 + 1 else 1) ∧ (1 : Nat) ≠ 0 ∧
      (2 : Nat) ≠ 0 :=
  c5_comm_no_sequence initTransport Reachable.init 3 0x12 [0, 12] [0, 1]
    "buy" "price" [(CMD_ACK, []), (CMD_POLL, [])] 1 2 rfl rfl

/-- Claim C2: starting from a freshly enqueued command (state
`waiting_ack`, zero retries), the first five polls each transmit the
command frame exactly once; the sixth poll emits exactly one timeout
event (and a bare ack), clears the pending slot and returns the engine
to idle; once idle, a poll only answers with the bare ack — and the
bare ack is never equal to the command frame, so no sixth transmission
of the command ever occurs. -/
theorem c2_timeout_after_five (t : VMCTransport) (c : PendingCmd)
    (hs : t.state = EngineState.waitingAck)
    (hp : t.pending_cmd = some c) (hr : c.retries = 0) :
    applyPolls t 5 =
      ({ t with pending_cmd := some { c with retries := 5 } },
       List.replicate 5 (TOut.write (build_frame c.cmd_id c.comm_no c.payload))) ∧
    handle_poll { t with pending_cmd := some { c with retries := 5 } } =
      ({ t with state := EngineState.idle, pending_cmd := none },
       [TOut.log ("Timeout: " ++ c.desc), TOut.write ackBytes]) ∧
    handle_poll { t with state := EngineState.idle, pending_cmd := none } =
      ({ t with state := EngineState.idle, pending_cmd := none },
       [TOut.write ackBytes]) ∧
    build_frame c.cmd_id c.comm_no c.payload ≠ ackBytes := by
  obtain ⟨st, ncn, pc⟩ := t
  obtain ⟨cid, comm, pl, r, d⟩ := c
  simp only at hs hp hr
  subst hs
  subst hp
  subst hr
  refine ⟨?_, ?_, ?_, ?_⟩
  · simp [applyPolls, handle_poll, handle_valid_packet, transmit_pending,
      List.replicate]
  · simp [handle_poll, handle_valid_packet, transmit_pending]
  · simp [handle_poll, handle_valid_packet]
  · intro hEq
    have h3 := congrArg (fun l => l.getD 3 0) hEq
    simp [build_frame, ackBytes, List.getD] at h3

/-- Witness for C2 at a concrete transport with a fresh `buy`
command. -/
theorem c2_timeout_after_five_witness :
    applyPolls ⟨EngineState.waitingAck, 2, some ⟨3, 1, [0, 12], 0, "buy"⟩⟩ 5 =
      (⟨EngineState.waitingAck, 2, some ⟨3, 1, [0, 12], 5, "buy"⟩⟩,
       List.replicate 5 (TOut.write (build_frame 3 1 [0, 12]))) ∧
    handle_poll ⟨EngineState.waitingAck, 2, some ⟨3, 1, [0, 12], 5, "buy"⟩⟩ =
      (⟨EngineState.idle, 2, none⟩,
       [TOut.log ("Timeout: " ++ "buy"), TOut.write ackBytes]) ∧
    handle_poll ⟨EngineState.idle, 2, none⟩ =
      (⟨EngineState.idle, 2, none⟩, [TOut.write ackBytes]) ∧
    build_frame 3 1 [0, 12] ≠ ackBytes :=
  c2_timeout_after_five ⟨EngineState.waitingAck, 2, some ⟨3, 1, [0, 12], 0, "buy"⟩⟩
    ⟨3, 1, [0, 12], 0, "buy"⟩ rfl rfl rfl

/-- Lower-case hexadecimal digit, as used by Python `bytes.hex()`. -/
def hexDigitLower (n : Nat) : Char :=
  if n < 10 then Char.ofNat (48 + n) else Char.ofNat (87 + n)

/-- Upper-case hexadecimal digit, as used by `.hex().upper()`. -/
def hexDigitUpper (n : Nat) : Char :=
  if n < 10 then Char.ofNat (48 + n) else Char.ofNat (55 + n)

/-- Python `payload.hex()`: each byte as two lower-case hex digits. -/
def hexLower (pl : Bytes) : String :=
  ⟨pl.foldr (fun b acc =>
      hexDigitLower (b / 16 % 16) :: hexDigitLower (b % 16) :: acc) []⟩

/-- Python `payload.hex().upper()`: two upper-case hex digits per byte. -/
def hexUpper (pl : Bytes) : String :=
  ⟨pl.foldr (fun b acc =>
      hexDigitUpper (b / 16 % 16) :: hexDigitUpper (b % 16) :: acc) []⟩

/-- Big-endian unsigned integer from a byte slice, as computed by
`int.from_bytes(..., 'big')` and `struct.unpack` fields. -/
def fromBytesBE (l : Bytes) : Nat := l.foldl (fun acc b => acc * 256 + b) 0

/-- `int(n).to_bytes(k, 'big')` / `struct.pack` big-endian fields;
defined here for `n < 256^k` (Python raises `OverflowError` beyond). -/
def toBytesBE : Nat → Nat → Bytes
  | 0, _ => []
  | k + 1, n => toBytesBE k (n / 256) ++ [n % 256]

/-- Result of `decode_slot_info` in `vmc_protocol.py`: either the
`{"error": "packet too short"}` dictionary or the decoded slot-info
fields. -/
inductive SlotInfoDecoded
  | tooShort
  | ok (pack_no selection price inventory capacity product_id status : Nat)
      (raw_payload : String)
deriving DecidableEq

/-- `decode_slot_info`: requires at least 12 payload bytes
(`PackNo(1)+Sel(2)+Price(4)+Inv(1)+Cap(1)+ID(2)+Stat(1)`), returning
the too-short error dictionary otherwise; fields are unpacked from
`payload[1:12]` with format `>HIBBHB`. -/
def decode_slot_info (payload : Bytes) : SlotInfoDecoded :=
  if payload.length < 12 then SlotInfoDecoded.tooShort
  else
    SlotInfoDecoded.ok (payload.getD 0 0)
      (fromBytesBE ((payload.drop 1).take 2))
      (fromBytesBE ((payload.drop 3).take 4))
      (payload.getD 7 0)
      (payload.getD 8 0)
      (fromBytesBE ((payload.drop 9).take 2))
      (payload.getD 11 0)
      (hexLower payload)

/-- Result of `decode_generic` in `vmc_protocol.py`: either the
`{"error": "packet empty"}` dictionary or the fallback fields
`pack_no`, `raw_data` (upper-case hex) and `raw_payload`. -/
inductive GenericDecoded
  | emptyError
  | ok (pack_no : Nat) (raw_data : String) (raw_payload : String)
deriving DecidableEq

/-- `decode_generic`: the fallback decoder for any command id without
a specific decoder.  Empty payloads yield the packet-empty error
dictionary; otherwise the first byte is the `PackNO` and the remaining
bytes are rendered as an upper-case hex string. -/
def decode_generic (payload : Bytes) : GenericDecoded :=
  if payload.length < 1 then GenericDecoded.emptyError
  else
    GenericDecoded.ok (payload.getD 0 0) (hexUpper (payload.drop 1))
      (hexLower payload)

/-- The command ids having a specific decoder: the keys of the
`DECODERS` dictionary in `vmc_protocol.py`. -/
def decoderIds : List Nat := [0x11, 0x04, 0x52, 0x02, 0x05, 0x21, 0x23]

/-- Input to `encode_buy`: the JSON dictionary's `selection` field,
absent when the key is missing. -/
structure BuyRequest where
  selection : Option Nat
deriving DecidableEq

/-- Input to `encode_set_price`: `selection` and `price` fields. -/
structure SetPriceRequest where
  selection : Option Nat
  price : Option Nat
deriving DecidableEq

/-- Input to `encode_direct_vend`: required `selection` plus optional
boolean flags `use_drop`, `use_elevator` and `cart`. -/
structure DirectVendRequest where
  selection : Option Nat
  use_drop : Option Bool
  use_elevator : Option Bool
  cart : Option Bool
deriving DecidableEq

/-- `encode_buy`: `data['selection']` as a 2-byte big-endian value.
A missing key makes Python raise `KeyError('selection')`; the raised
key is modelled as the `error` result. -/
def encode_buy (d : BuyRequest) : Except String Bytes :=
  match d.selection with
  | none => Except.error "selection"
  | some sel => Except.ok (toBytesBE 2 sel)

/-- `encode_set_price`: selection (2 bytes) then price (4 bytes), both
big-endian; `data['selection']` is evaluated first, so its `KeyError`
wins when both are missing. -/
def encode_set_price (d : SetPriceRequest) : Except String Bytes :=
  match d.selection with
  | none => Except.error "selection"
  | some sel =>
    match d.price with
    | none => Except.error "price"
    | some price => Except.ok (toBytesBE 2 sel ++ toBytesBE 4 price)

/-- `encode_direct_vend`: `struct.pack('>BBHB', drop, elevator,
selection, cart)` where the flags come from `data.get` with defaults
`use_drop=True`, `use_elevator=True`, `cart=False`, each encoded as
one byte `1`/`0`; `selection` is required. -/
def encode_direct_vend (d : DirectVendRequest) : Except String Bytes :=
  match d.selection with
  | none => Except.error "selection"
  | some sel =>
    Except.ok
      ([if d.use_drop.getD true then 1 else 0,
        if d.use_elevator.getD true then 1 else 0] ++
       toBytesBE 2 sel ++
       [if d.cart.getD false then 1 else 0])

/-- Claim C6: a slot-info payload shorter than the documented minimum
of 12 bytes (for example length 5) makes `decode_slot_info` return the
too-short error value — the length guard precedes every payload index,
so no out-of-bounds access occurs — and the engine still sends the
data-ack for the enclosing data frame: `_handle_valid_packet` acks
every non-poll/non-ack frame before handing it to the decoders. -/
theorem c6_slot_info_too_short (pl : Bytes) (h : pl.length < 12)
    (t : VMCTransport) (cmd : Nat) (h1 : cmd ≠ CMD_POLL) (h2 : cmd ≠ CMD_ACK) :
    decode_slot_info pl = SlotInfoDecoded.tooShort ∧
    handle_valid_packet t cmd pl =
      (t, [TOut.write ackBytes, TOut.packet cmd pl]) := by
  constructor
  · simp [decode_slot_info, h]
  · simp [handle_valid_packet, h1, h2]

/-- Witness for C6: a 5-byte slot-info payload (command id `0x11`)
arriving at the initial transport. -/
theorem c6_slot_info_too_short_witness :
    decode_slot_info [1, 2, 3, 4, 5] = SlotInfoDecoded.tooShort ∧
    handle_valid_packet initTransport 0x11 [1, 2, 3, 4, 5] =
      (initTransport, [TOut.write ackBytes, TOut.packet 0x11 [1, 2, 3, 4, 5]]) :=
  c6_slot_info_too_short [1, 2, 3, 4, 5] (by decide) initTransport 0x11
    (by decide) (by decide)

/-- Counterexample to C7 as stated: the generic fallback decoder does
not succeed on the empty payload — `decode_generic(b"")` returns the
`{"error": "packet empty"}` dictionary instead of a decoded event with
a pack number and hex string. -/
theorem c7_empty_payload_cex :
    decode_generic [] = GenericDecoded.emptyError := by
  decide

/-- Claim C7 (amended): for every nonempty payload the generic
fallback decoder succeeds, returning the first byte as the pack number
and the remaining bytes as an upper-case hex string (the empty payload
instead yields a packet-empty error); command id `0x99` has no entry
in the decoder table, and its payload `[0x07, 0xAA, 0xBB]` decodes via
the fallback to pack number 7 and raw data `AABB`. -/
theorem c7_generic_fallback (pl : Bytes) (h : pl ≠ []) :
    decode_generic pl =
      GenericDecoded.ok (pl.getD 0 0) (hexUpper (pl.drop 1)) (hexLower pl) ∧
    decoderIds.contains 0x99 = false ∧
    decode_generic [0x07, 0xAA, 0xBB] = GenericDecoded.ok 7 "AABB" "07aabb" := by
  refine ⟨?_, by decide, by decide⟩
  have : ¬ pl.length < 1 := by
    cases pl with
    | nil => exact absurd rfl h
    | cons a l => simp
  simp [decode_generic, this]

/-- Witness for C7 at the scenario payload `[0x07, 0xAA, 0xBB]`. -/
theorem c7_generic_fallback_witness :
    decode_generic [0x07, 0xAA, 0xBB] =
      GenericDecoded.ok (List.getD [0x07, 0xAA, 0xBB] 0 0)
        (hexUpper (List.drop 1 [0x07, 0xAA, 0xBB]))
        (hexLower [0x07, 0xAA, 0xBB]) ∧
    decoderIds.contains 0x99 = false ∧
    decode_generic [0x07, 0xAA, 0xBB] = GenericDecoded.ok 7 "AABB" "07aabb" :=
  c7_generic_fallback [0x07, 0xAA, 0xBB] (by decide)

/-- Claim C8: each encoder fails naming the missing required numeric
field (`selection` for buy and direct-vend, `price` for set-price)
rather than defaulting it, while the optional boolean flags receive
the documented defaults — drop sensor and elevator default to use
(`1`), cart to `0` — only when omitted, each encoded as a single
`0`/`1` byte. -/
theorem c8_encoder_contract :
    (∀ ud ue ca, encode_direct_vend ⟨none, ud, ue, ca⟩ =
        Except.error "selection") ∧
    encode_buy ⟨none⟩ = Except.error "selection" ∧
    (∀ p, encode_set_price ⟨none, p⟩ = Except.error "selection") ∧
    (∀ s, encode_set_price ⟨some s, none⟩ = Except.error "price") ∧
    (∀ sel, encode_direct_vend ⟨some sel, none, none, none⟩ =
        Except.ok ([1, 1] ++ toBytesBE 2 sel ++ [0])) ∧
    (∀ sel, encode_direct_vend ⟨some sel, some false, some false, some true⟩ =
        Except.ok ([0, 0] ++ toBytesBE 2 sel ++ [1])) := by
  refine ⟨fun ud ue ca => rfl, rfl, fun p => rfl, fun s => rfl,
    fun sel => rfl, fun sel => rfl⟩

/-- Witness for C8 at concrete requests (selection 12). -/
theorem c8_encoder_contract_witness :
    encode_direct_vend ⟨none, some true, none, some false⟩ =
      Except.error "selection" ∧
    encode_direct_vend ⟨some 12, none, none, none⟩ =
      Except.ok ([1, 1] ++ toBytesBE 2 12 ++ [0]) :=
  ⟨c8_encoder_contract.1 (some true) none (some false),
   (c8_encoder_contract.2.2.2.2.1) 12⟩

/-- Draining an empty buffer yields no frames, whatever the fuel. -/
lemma processBufferAux_nil (f : Nat) (acc : List (Nat × Bytes)) :
    processBufferAux f [] acc = (acc, []) := by
  cases f <;> simp [processBufferAux]

/-- A buffer beginning with the two sync bytes has its first sync
occurrence at index 0. -/
lemma findSyncIdx_sync (rest : Bytes) :
    findSyncIdx (STX1 :: STX2 :: rest) = some 0 := by
  simp [findSyncIdx]

/-- `getD` after `drop` reads at the shifted index. -/
lemma getD_drop (l : Bytes) (n i : Nat) :
    (l.drop n).getD i 0 = l.getD (n + i) 0 := by
  simp [List.getD_eq_getElem?_getD, List.getElem?_drop]

/-- A found sync index leaves room for the two sync bytes. -/
lemma findSyncIdx_le (l : Bytes) (s : Nat) (h : findSyncIdx l = some s) :
    s + 2 ≤ l.length := by
  induction l generalizing s with
  | nil => simp [findSyncIdx] at h
  | cons a t ih =>
    cases t with
    | nil => simp [findSyncIdx] at h
    | cons b r =>
      simp only [findSyncIdx] at h
      split at h
      · cases h
        simp
      · obtain ⟨s1, hs1, hss⟩ := Option.map_eq_some'.mp h
        have hb := ih s1 hs1
        simp only [List.length_cons] at hb ⊢
        omega

/-- Claim C1: feeding the bytes produced by `build_packet` (sync1,
sync2, command id, length, payload, xor checksum) for any command id
and any payload of length up to 254 to the stream parser yields
exactly one checksum-valid frame carrying exactly that command id and
payload, and leaves the buffer empty. -/
theorem c1_round_trip (cmd : Nat) (payload : Bytes) (hcmd : cmd < 256)
    (hpl : ∀ b ∈ payload, b < 256) (hlen : payload.length ≤ 254) :
    processBufferApp (build_packet cmd payload) = ([(cmd, payload)], []) := by
  have hbuf : build_packet cmd payload =
      STX1 :: STX2 :: cmd :: payload.length ::
        (payload ++ [xorAll (STX1 :: STX2 :: cmd :: payload.length :: payload)]) := by
    simp [build_packet]
  rw [hbuf]
  set chk := xorAll (STX1 :: STX2 :: cmd :: payload.length :: payload) with hchk
  set b := STX1 :: STX2 :: cmd :: payload.length :: (payload ++ [chk]) with hb
  have hblen : b.length = payload.length + 5 := by simp [hb]
  have h5 : ¬ b.length < 5 := by omega
  have hsync : findSyncIdx b = some 0 := by rw [hb]; exact findSyncIdx_sync _
  have hgd2 : b.getD 2 0 = cmd := by simp [hb]
  have hgd3 : b.getD 3 0 = payload.length := by simp [hb]
  have hfl : ¬ b.length < 2 + 1 + 1 + payload.length + 1 := by omega
  have htake : b.take (2 + 1 + 1 + payload.length + 1) = b := by
    apply List.take_of_length_le
    omega
  have hdrop : b.drop (2 + 1 + 1 + payload.length + 1) = [] := by
    apply List.drop_eq_nil_of_le
    omega
  have e_dl : ∀ (l : Bytes) (a : Nat), (l ++ [a]).dropLast = l := fun l a => by simp
  have e_gl : ∀ (l : Bytes) (a : Nat), (l ++ [a]).getLastD 0 = a := fun l a => by simp
  have hdl : b.dropLast = STX1 :: STX2 :: cmd :: payload.length :: payload := by
    rw [show b = (STX1 :: STX2 :: cmd :: payload.length :: payload) ++ [chk] from by
      simp [hb]]
    rw [e_dl]
  have hgl : b.getLastD 0 = chk := by
    rw [show b = (STX1 :: STX2 :: cmd :: payload.length :: payload) ++ [chk] from by
      simp [hb]]
    rw [e_gl]
  have hpay : (b.drop 4).dropLast = payload := by
    rw [show (b.drop 4) = payload ++ [chk] from by simp [hb]]
    rw [e_dl]
  rw [processBufferApp]
  rw [processBufferAux]
  rw [if_neg h5, hsync]
  simp only [List.drop_zero]
  rw [if_neg h5]
  simp only [hgd2, hgd3]
  rw [if_neg hfl]
  simp only [htake, hdrop, hdl, hgl, hchk, hpay]
  simp only [if_true, eq_self_iff_true, List.nil_append, processBufferAux_nil]

/-- Witness for C1: the slot-info command id `0x11` with the one-byte
payload `[0x07]` round-trips. -/
theorem c1_round_trip_witness :
    processBufferApp (build_packet 0x11 [0x07]) = ([(0x11, [0x07])], []) :=
  c1_round_trip 0x11 [0x07] (by decide) (by decide) (by decide)

/-- Counterexample to C9 as stated: when at least 5 bytes are buffered
and no sync pair occurs among them, `_process_buffer` clears the whole
buffer instead of retaining the buffered bytes.  On `[0, 0, 0, 0,
0xFA]` the parser discards even the trailing `0xFA`, which is not
"preceding" any sync-pair occurrence — so a sync pair split across two
reads loses its frame, while the same nine bytes arriving together
parse into the frame `(0x41, [])`. -/
theorem c9_split_sync_cex :
    processBufferApp [0, 0, 0, 0, 0xFA] = ([], []) ∧
    processBufferApp ([0, 0, 0, 0] ++ [0xFA, 0xFB, 0x41, 0x00, 0x40]) =
      ([(0x41, [])], []) := by
  decide

/-- Claim C9 (amended): a buffer of fewer than 5 bytes is retained in
full and signals need-more-data.  When a sync pair occurs at first
index `start` and the buffer is too short for the full frame
(`length < start + 4 + lengthByte + 1`, which subsumes an incomplete
4-byte header), the parser discards exactly the `start` bytes
preceding the sync pair, retains the rest and signals need-more-data.
But when at least 5 bytes are buffered and no sync pair occurs among
them, the parser clears the entire buffer (it does not retain a
trailing partial sync byte). -/
theorem c9_need_more_data (buf : Bytes) :
    (buf.length < 5 → processBufferApp buf = ([], buf)) ∧
    (∀ start, findSyncIdx buf = some start → 5 ≤ buf.length →
      buf.length < start + 5 + buf.getD (start + 3) 0 →
      processBufferApp buf = ([], buf.drop start)) ∧
    (findSyncIdx buf = none → 5 ≤ buf.length →
      processBufferApp buf = ([], [])) := by
  refine ⟨?_, ?_, ?_⟩
  · intro h
    rw [processBufferApp, processBufferAux, if_pos h]
  · intro start hsync hlen hfl
    have hst : start + 2 ≤ buf.length := findSyncIdx_le buf start hsync
    rw [processBufferApp, processBufferAux, if_neg (by omega), hsync]
    have hdlen : (buf.drop start).length = buf.length - start := by simp
    by_cases hc : (buf.drop start).length < 5
    · simp only [hc, if_true, if_pos hc]
    · have hgd : (buf.drop start).getD 3 0 = buf.getD (start + 3) 0 :=
        getD_drop buf start 3
      simp only [if_neg hc, hgd]
      rw [if_pos (by omega)]
  · intro hnone hlen
    rw [processBufferApp, processBufferAux, if_neg (by omega), hnone]

/-- Witness for C9: a single buffered `0xFA` is retained, and a synced
slot-info header announcing 7 payload bytes with only one buffered is
retained unchanged (its sync is at index 0). -/
theorem c9_need_more_data_witness :
    processBufferApp [0xFA] = ([], [0xFA]) ∧
    processBufferApp [0xFA, 0xFB, 0x11, 0x07, 0x01] =
      ([], List.drop 0 [0xFA, 0xFB, 0x11, 0x07, 0x01]) :=
  ⟨(c9_need_more_data [0xFA]).1 (by decide),
   (c9_need_more_data [0xFA, 0xFB, 0x11, 0x07, 0x01]).2.1 0 (by decide)
     (by decide) (by decide)⟩

/-- Claim C10: the hard-coded bare ack frame `[0xFA, 0xFB, 0x42, 0x00,
0x43]` written by the transport is byte-for-byte the generic frame
builder's output for command id `0x42` with empty payload, and its
trailing byte `0x43` is the exclusive-or of all preceding bytes, so the
ack frame is checksum-valid. -/
theorem c10_ack_frame_valid :
    ackBytes = build_packet CMD_ACK [] ∧
    ackBytes.getLastD 0 = xorAll ackBytes.dropLast := by
  decide
